import Mathlib

/-!
Verification of the Play notification service (src/index.js).

The service decodes Google Play subscription notifications arriving over
three transports (webhook push, synchronous Pub/Sub pull, streaming pull),
stores them, and enriches them with subscription state fetched from the
Play Developer API (v2 preferred, v1 fallback).

JavaScript values carried in request bodies and API responses are modelled
by an inductive `Json` type; `undefined` is modelled by `Option.none` at
use sites.  External collaborators that the handlers call (JSON.parse,
Buffer base64 decoding, the two Play API lookups, date formatting) are
modelled as oracle functions bundled in an `Ext` record: the handlers'
control flow is embedded faithfully, quantified over any oracle behaviour.
-/

namespace PlayService

/-- A JSON value as delivered by the express JSON body parser or by the
upstream API client.  Numbers are modelled as integers (no claim involves
fractional values). -/
inductive Json where
  | null : Json
  | bool : Bool → Json
  | num : Int → Json
  | str : String → Json
  | arr : List Json → Json
  | obj : List (String × Json) → Json

/-- JavaScript truthiness of a value: null, false, 0 and the empty string
are falsy; every object and array is truthy. -/
def Json.truthy : Json → Bool
  | .null => false
  | .bool b => b
  | .num n => n != 0
  | .str s => s != ""
  | .arr _ => true
  | .obj _ => true

/-- Property access `j.k`: returns the field value when `j` is an object
with field `k`, and `none` (JavaScript `undefined`) otherwise. -/
def jget (j : Json) (k : String) : Option Json :=
  match j with
  | .obj fields => fields.lookup k
  | _ => none

/-- Property access followed by a falsy-coalescing default, as in the
source's `x.k || null` pattern: a missing or falsy field becomes `none`. -/
def jgetTruthy (j : Json) (k : String) : Option Json :=
  match jget j k with
  | some v => if v.truthy then some v else none
  | none => none

/-- Truthiness of a possibly-undefined value (`undefined` is falsy). -/
def truthyOpt : Option Json → Bool
  | none => false
  | some j => j.truthy

/-- External collaborators of the handlers, as oracle functions:
JSON.parse (`none` models a parse exception), base64-plus-UTF-8 decoding
via `Buffer.from(x, base64).toString(utf8)` (`none` models a `Buffer.from`
exception on a non-string input), the two Play Developer API lookups
(`none` models the caught-error `null` result of
`getSubscriptionDetailsV2`/`V1`), the two IST date renderers, and the
clock readings used for generated identifiers and timestamps. -/
structure Ext where
  parseJson : String → Option Json
  tryDecodeB64 : Json → Option String
  getV2 : Option Json → Option Json → Option Json
  getV1 : Option Json → Option Json → Option Json → Option Json
  toIST : Option Json → Option String
  millisToIST : Option Json → Option String
  nowMs : String
  nowIso : String
  nowIST : Option String

/-- The nested payload path `req.body?.message?.data` read by the push
handler. -/
def jpathMessageData (body : Json) : Option Json :=
  (jget body "message").bind (fun m => jget m "data")

/-- Decoding step of the `POST /push` handler (src/index.js lines 74-82):
start from the raw body; when `body.message.data` is present and truthy,
try base64-decoding and JSON-parsing it, falling back to the raw body if
either step throws. -/
def decodePush (ext : Ext) (body : Json) : Json :=
  match jpathMessageData body with
  | some d =>
      if d.truthy then
        match (ext.tryDecodeB64 d).bind ext.parseJson with
        | some parsed => parsed
        | none => body
      else body
  | none => body

/-- A stored push notification record (src/index.js lines 84-90). -/
structure PushEntry where
  id : String
  type : String
  data : Json
  rawPayload : Json
  createdAt : String

/-- Construction of the push record appended by `POST /push`. -/
def mkPushEntry (ext : Ext) (body : Json) : PushEntry :=
  { id := ext.nowMs
    type := "push"
    data := decodePush ext body
    rawPayload := body
    createdAt := ext.nowIso }

/-- Decoding step shared by the synchronous pull handler (lines 154-160)
and the streaming pull handler (lines 224-229): JSON.parse the UTF-8
decoded message bytes, storing the raw string itself on parse failure. -/
def decodePullData (ext : Ext) (dataStr : String) : Json :=
  match ext.parseJson dataStr with
  | some j => j
  | none => .str dataStr

/-- A stored pull notification record (sync pull lines 162-170, streaming
lines 231-239).  `dataStr` in the builders below is the UTF-8 rendering of
the transport message's byte payload (`msg.message.data.toString(utf8)`,
which is total in Node). -/
structure PullNotification where
  id : String
  type : String
  messageId : String
  data : Json
  publishTime : Option String
  pulledAt : String

/-- Record built per message by the synchronous `POST /pull` handler. -/
def mkPullEntry (ext : Ext) (messageId dataStr : String)
    (publishTime : Option String) : PullNotification :=
  { id := ext.nowMs ++ "-" ++ messageId
    type := "pull"
    messageId := messageId
    data := decodePullData ext dataStr
    publishTime := publishTime
    pulledAt := ext.nowIso }

/-- Record built per message by the streaming listener callback of
`POST /pull/start`. -/
def mkStreamEntry (ext : Ext) (messageId dataStr : String)
    (publishTime : Option String) : PullNotification :=
  { id := ext.nowMs ++ "-" ++ messageId
    type := "pull-stream"
    messageId := messageId
    data := decodePullData ext dataStr
    publishTime := publishTime
    pulledAt := ext.nowIso }

/-- The fixed notification-type enumeration (src/index.js lines 8-23),
as the association list underlying the plain-object lookup table. -/
def NOTIFICATION_TYPES_LIST : List (Int × String) :=
  [(1, "SUBSCRIPTION_RECOVERED"),
   (2, "SUBSCRIPTION_RENEWED"),
   (3, "SUBSCRIPTION_CANCELED"),
   (4, "SUBSCRIPTION_PURCHASED"),
   (5, "SUBSCRIPTION_ON_HOLD"),
   (6, "SUBSCRIPTION_IN_GRACE_PERIOD"),
   (7, "SUBSCRIPTION_RESTARTED"),
   (8, "SUBSCRIPTION_PRICE_CHANGE_CONFIRMED"),
   (9, "SUBSCRIPTION_DEFERRED"),
   (10, "SUBSCRIPTION_PAUSED"),
   (11, "SUBSCRIPTION_PAUSE_SCHEDULE_CHANGED"),
   (12, "SUBSCRIPTION_REVOKED"),
   (13, "SUBSCRIPTION_EXPIRED"),
   (20, "SUBSCRIPTION_PENDING_PURCHASE_CANCELED")]

/-- Indexing into the notification-type table. -/
def NOTIFICATION_TYPES (c : Int) : Option String :=
  NOTIFICATION_TYPES_LIST.lookup c

/-- The name stored for a notification type, per the source's
`NOTIFICATION_TYPES[notificationType] || UNKNOWN` expression: an integer
code found in the table yields its name, anything else the UNKNOWN
sentinel. -/
def typeNameOf (nt : Option Json) : String :=
  match nt with
  | some (.num c) => (NOTIFICATION_TYPES c).getD "UNKNOWN"
  | _ => "UNKNOWN"

/-- Enrichment fields extracted from an upstream API response; every field
starts out null and is filled in per API version. -/
structure Extracted where
  userAccountId : Option Json
  userProfileId : Option Json
  subscriptionState : Option Json
  expiryTime : Option Json
  expiryTimeIST : Option String
  startTime : Option Json
  startTimeIST : Option String

/-- The all-null extraction (src/index.js lines 413-419). -/
def emptyExtracted : Extracted :=
  { userAccountId := none, userProfileId := none, subscriptionState := none
    expiryTime := none, expiryTimeIST := none
    startTime := none, startTimeIST := none }

/-- The `lineItems || []` list of a v2 response; a truthy non-array value
(which property-indexing in the source would treat element-wise) is
modelled as empty, as upstream v2 responses carry arrays here. -/
def lineItemsOf (details : Json) : List Json :=
  match jgetTruthy details "lineItems" with
  | some (.arr xs) => xs
  | _ => []

/-- v2-shape field extraction in the batch enricher (lines 422-434):
user identifiers from the nested `externalAccountIdentifiers` object,
expiry time from the first line item, each defaulted to null via `||`. -/
def extractV2 (ext : Ext) (details : Json) : Extracted :=
  let externalIds := (jgetTruthy details "externalAccountIdentifiers").getD (.obj [])
  let expiry :=
    match lineItemsOf details with
    | [] => (none, none)
    | item :: _ =>
        let e := jgetTruthy item "expiryTime"
        (e, ext.toIST e)
  { userAccountId := jgetTruthy externalIds "obfuscatedExternalAccountId"
    userProfileId := jgetTruthy externalIds "obfuscatedExternalProfileId"
    subscriptionState := jgetTruthy details "subscriptionState"
    expiryTime := expiry.1
    expiryTimeIST := expiry.2
    startTime := jgetTruthy details "startTime"
    startTimeIST := ext.toIST (jgetTruthy details "startTime") }

/-- v1-shape field extraction in the batch enricher (lines 436-441):
top-level identifiers, millisecond-epoch times, no state field. -/
def extractV1 (ext : Ext) (details : Json) : Extracted :=
  { userAccountId := jgetTruthy details "obfuscatedExternalAccountId"
    userProfileId := jgetTruthy details "obfuscatedExternalProfileId"
    subscriptionState := none
    expiryTime := jgetTruthy details "expiryTimeMillis"
    expiryTimeIST := ext.millisToIST (jgetTruthy details "expiryTimeMillis")
    startTime := jgetTruthy details "startTimeMillis"
    startTimeIST := ext.millisToIST (jgetTruthy details "startTimeMillis") }

/-- Dispatch of the extraction block (lines 421-443): fields are filled
only when the response is truthy, by the branch matching `apiVersion`. -/
def extractDetails (ext : Ext) (apiVersion : String) (details : Option Json) :
    Extracted :=
  match details with
  | some d =>
      if d.truthy then
        if apiVersion == "v2" then extractV2 ext d else extractV1 ext d
      else emptyExtracted
  | none => emptyExtracted

/-- A stored enriched-subscription record (src/index.js lines 445-485),
with the nested `notification`/`user`/`subscription` groups flattened. -/
structure EnrichedSubscription where
  id : String
  messageId : String
  notificationType : Option Json
  notificationTypeName : String
  eventTime : Option Json
  eventTimeIST : Option String
  packageName : Option Json
  subscriptionId : Option Json
  purchaseToken : Option Json
  userAccountId : Option Json
  userProfileId : Option Json
  subscriptionState : Option Json
  startTime : Option Json
  startTimeIST : Option String
  expiryTime : Option Json
  expiryTimeIST : Option String
  apiResponse : Option Json
  apiVersion : String
  pulledAt : String
  processedAt : String
  processedAtIST : Option String

/-- Construction of the enriched record from a qualifying notification,
its `subscriptionNotification` object, the authoritative API version and
the (possibly null) response that version returned. -/
def mkEnriched (ext : Ext) (n : PullNotification) (sn : Json)
    (apiVersion : String) (details : Option Json) : EnrichedSubscription :=
  let ex := extractDetails ext apiVersion details
  { id := ext.nowMs ++ "-" ++ n.messageId
    messageId := n.messageId
    notificationType := jget sn "notificationType"
    notificationTypeName := typeNameOf (jget sn "notificationType")
    eventTime := jget n.data "eventTimeMillis"
    eventTimeIST := ext.millisToIST (jget n.data "eventTimeMillis")
    packageName := jget n.data "packageName"
    subscriptionId := jget sn "subscriptionId"
    purchaseToken := jget sn "purchaseToken"
    userAccountId := ex.userAccountId
    userProfileId := ex.userProfileId
    subscriptionState := ex.subscriptionState
    startTime := ex.startTime
    startTimeIST := ex.startTimeIST
    expiryTime := ex.expiryTime
    expiryTimeIST := ex.expiryTimeIST
    apiResponse := details
    apiVersion := apiVersion
    pulledAt := n.pulledAt
    processedAt := ext.nowIso
    processedAtIST := ext.nowIST }

/-- An upstream Play API call, recording which version was invoked with
which arguments, in invocation order. -/
inductive ApiCall where
  | v2 : Option Json → Option Json → ApiCall
  | v1 : Option Json → Option Json → Option Json → ApiCall

/-- Processing status reported per batch result entry. -/
inductive EnrichStatus where
  | processed
  | already_processed
deriving DecidableEq

/-- One entry of the batch handler's `results` array: a record plus its
`status` tag. -/
structure ResultEntry where
  entry : EnrichedSubscription
  status : EnrichStatus

/-- One iteration of the `POST /subscriptions/fetch` loop (lines 380-489)
on a stored pull notification: skip non-subscription notifications,
short-circuit on an already-stored `messageId`, otherwise call v2 and
fall back to v1 when v2 yields no truthy data, then append the enriched
record.  Returns the updated store, the result entry pushed (if any), and
the upstream calls made. -/
def enrichOne (ext : Ext) (store : List EnrichedSubscription)
    (n : PullNotification) :
    List EnrichedSubscription × Option ResultEntry × List ApiCall :=
  match jgetTruthy n.data "subscriptionNotification" with
  | none => (store, none, [])
  | some sn =>
      match store.find? (fun s => s.messageId == n.messageId) with
      | some existing => (store, some ⟨existing, .already_processed⟩, [])
      | none =>
          let pn := jget n.data "packageName"
          let pt := jget sn "purchaseToken"
          let sid := jget sn "subscriptionId"
          let v2res := ext.getV2 pn pt
          if truthyOpt v2res then
            let e := mkEnriched ext n sn "v2" v2res
            (store ++ [e], some ⟨e, .processed⟩, [.v2 pn pt])
          else
            let v1res := ext.getV1 pn sid pt
            let e := mkEnriched ext n sn "v1" v1res
            (store ++ [e], some ⟨e, .processed⟩, [.v2 pn pt, .v1 pn sid pt])

/-- The whole `POST /subscriptions/fetch` run: fold `enrichOne` over the
stored pull notifications, accumulating results and upstream calls. -/
def subscriptionsFetch (ext : Ext) (pullStore : List PullNotification)
    (subsStore : List EnrichedSubscription) :
    List EnrichedSubscription × List ResultEntry × List ApiCall :=
  pullStore.foldl
    (fun acc n =>
      let step := enrichOne ext acc.1 n
      (step.1, acc.2.1 ++ step.2.1.toList, acc.2.2 ++ step.2.2))
    (subsStore, [], [])

/-- Field extraction of the ad-hoc lookup handler (lines 547-562).  It
differs from the batch extraction in omitting the `|| null` defaults on
the leaf fields; absent leaves stay `undefined` (`none`). -/
def extractLookup (apiVersion : String) (details : Json) : Extracted :=
  if apiVersion == "v2" then
    let externalIds := (jgetTruthy details "externalAccountIdentifiers").getD (.obj [])
    { userAccountId := jget externalIds "obfuscatedExternalAccountId"
      userProfileId := jget externalIds "obfuscatedExternalProfileId"
      subscriptionState := jget details "subscriptionState"
      expiryTime :=
        match lineItemsOf details with
        | [] => none
        | item :: _ => jget item "expiryTime"
      expiryTimeIST := none
      startTime := jget details "startTime"
      startTimeIST := none }
  else
    { userAccountId := jget details "obfuscatedExternalAccountId"
      userProfileId := jget details "obfuscatedExternalProfileId"
      subscriptionState := none
      expiryTime := jget details "expiryTimeMillis"
      expiryTimeIST := none
      startTime := jget details "startTimeMillis"
      startTimeIST := none }

/-- Response of the `POST /subscriptions/lookup` handler. -/
inductive LookupResult where
  | badRequest : LookupResult
  | notFound : LookupResult
  | ok : String → Extracted → Option Json → LookupResult

/-- The `POST /subscriptions/lookup` handler (lines 517-590): reject a
request missing truthy `packageName`/`purchaseToken`; call v2; when v2
yields no truthy data and a truthy `subscriptionId` was supplied, fall
back to v1; respond 404 when no truthy data was obtained.  It threads the
enriched-subscriptions store it has access to, which it never touches.
Returns the store, the response, and the upstream calls made. -/
def subscriptionsLookup (ext : Ext) (subsStore : List EnrichedSubscription)
    (packageName purchaseToken subscriptionId : Option Json) :
    List EnrichedSubscription × LookupResult × List ApiCall :=
  if ¬ (truthyOpt packageName && truthyOpt purchaseToken) then
    (subsStore, .badRequest, [])
  else
    let v2res := ext.getV2 packageName purchaseToken
    if truthyOpt v2res then
      (subsStore, .ok "v2" (extractLookup "v2" (v2res.getD .null)) v2res,
       [.v2 packageName purchaseToken])
    else
      if truthyOpt subscriptionId then
        let v1res := ext.getV1 packageName subscriptionId purchaseToken
        if truthyOpt v1res then
          (subsStore, .ok "v1" (extractLookup "v1" (v1res.getD .null)) v1res,
           [.v2 packageName purchaseToken,
            .v1 packageName subscriptionId purchaseToken])
        else
          (subsStore, .notFound,
           [.v2 packageName purchaseToken,
            .v1 packageName subscriptionId purchaseToken])
      else
        (subsStore, .notFound, [.v2 packageName purchaseToken])

/-- The `pullListener` module variable: `none` when no streaming listener
is active, `some l` when listener `l` is.  Listeners are identified by a
token so that "unchanged" is expressible. -/
abbrev ListenerState := Option Nat

/-- The `POST /pull/start` handler's effect on the listener variable
(lines 206-257): reject when the project id is unconfigured, no-op when a
listener is already running, otherwise install a fresh listener. -/
def pullStart (projectIdSet : Bool) (st : ListenerState) (fresh : Nat) :
    ListenerState × String :=
  if ¬ projectIdSet then
    (st, "GCP_PROJECT_ID environment variable not set")
  else
    match st with
    | some l => (some l, "Pull listener already running")
    | none => (some fresh, "Pull listener started")

/-- The `POST /pull/stop` handler's effect on the listener variable
(lines 260-268): no-op when none is running, otherwise remove it. -/
def pullStop (st : ListenerState) : ListenerState × String :=
  match st with
  | none => (none, "No pull listener running")
  | some _ => (none, "Pull listener stopped")

/-- Observable side effects of the pull paths, in program order: an
in-memory append to the pull collection, a rewrite of the pull data file
(or its failure), and a transport acknowledgment. -/
inductive PubSubEvent where
  | append : String → PubSubEvent
  | save : PubSubEvent
  | saveFail : PubSubEvent
  | ack : String → PubSubEvent
deriving DecidableEq

/-- A message as delivered by the messaging collaborator. -/
structure PullMsg where
  messageId : String
  dataStr : String

/-- Effect trace of the synchronous `POST /pull` handler (lines 141-186)
on a nonempty batch: the loop appends every message in memory, then the
whole batch is acknowledged, then the file is written once (`saveOk`
models whether that write succeeds; on failure the handler's catch block
responds 500, but the acknowledgment has already been sent). -/
def syncPullTrace (msgs : List PullMsg) (saveOk : Bool) : List PubSubEvent :=
  if msgs.isEmpty then []
  else
    (msgs.map fun m => .append m.messageId)
      ++ (msgs.map fun m => .ack m.messageId)
      ++ [if saveOk then .save else .saveFail]

/-- Effect trace of the streaming listener callback (lines 221-246) on
one delivered message: append, write the file, and only then acknowledge;
a thrown file write aborts the callback before `message.ack()`. -/
def streamMessageTrace (m : PullMsg) (saveOk : Bool) : List PubSubEvent :=
  if saveOk then [.append m.messageId, .save, .ack m.messageId]
  else [.append m.messageId, .saveFail]

/-- Trace predicate: every acknowledgment is preceded by a durable append
of the same message, i.e. an append of it followed by a successful file
write.  `durable` holds identifiers already persisted, `pending` those
appended in memory but not yet written out. -/
def ackAfterDurableAux (durable pending : List String) :
    List PubSubEvent → Bool
  | [] => true
  | .append m :: rest => ackAfterDurableAux durable (m :: pending) rest
  | .save :: rest => ackAfterDurableAux (pending ++ durable) [] rest
  | .saveFail :: rest => ackAfterDurableAux durable pending rest
  | .ack m :: rest => durable.contains m && ackAfterDurableAux durable pending rest

/-- Top-level form of the durable-before-acknowledge trace predicate. -/
def ackAfterDurable (tr : List PubSubEvent) : Bool :=
  ackAfterDurableAux [] [] tr

/-- Weaker trace predicate: every acknowledgment is preceded by an
in-memory append of the same message (durability not required). -/
def appendBeforeAckAux (seen : List String) : List PubSubEvent → Bool
  | [] => true
  | .append m :: rest => appendBeforeAckAux (m :: seen) rest
  | .ack m :: rest => seen.contains m && appendBeforeAckAux seen rest
  | .save :: rest => appendBeforeAckAux seen rest
  | .saveFail :: rest => appendBeforeAckAux seen rest

/-- Top-level form of the append-before-acknowledge trace predicate. -/
def appendBeforeAck (tr : List PubSubEvent) : Bool :=
  appendBeforeAckAux [] tr

/-- Number of stored enriched records carrying a given message id. -/
def countMid (store : List EnrichedSubscription) (m : String) : Nat :=
  (store.filter (fun s => s.messageId == m)).length

/-- The spec's per-`messageId` uniqueness invariant on the
enriched-subscriptions store. -/
def atMostOnePerMessageId (store : List EnrichedSubscription) : Prop :=
  store.Pairwise (fun a b => a.messageId ≠ b.messageId)

/-- Concrete oracle for closed witnesses: one parseable payload string,
string-identity base64 decoding, and no upstream data for either API
version. -/
def extPushW : Ext :=
  { parseJson := fun s => if s = "PAYLOAD" then some (.obj [("ok", .num 1)]) else none
    tryDecodeB64 := fun j =>
      match j with
      | .str s => if s = "" then none else some s
      | _ => none
    getV2 := fun _ _ => none
    getV1 := fun _ _ _ => none
    toIST := fun _ => none
    millisToIST := fun _ => none
    nowMs := "1000"
    nowIso := "t0"
    nowIST := none }

/-- Concrete push envelope whose nested `message.data` decodes. -/
def bodyW : Json := .obj [("message", .obj [("data", .str "PAYLOAD")])]

/-- Concrete subscription-notification object used by witnesses. -/
def snW : Json :=
  .obj [("purchaseToken", .str "tok1"), ("subscriptionId", .str "sub1"),
        ("notificationType", .num 4)]

/-- Concrete decoded pull payload used by witnesses. -/
def pullDataW : Json :=
  .obj [("packageName", .str "com.x"), ("eventTimeMillis", .num 5),
        ("subscriptionNotification", snW)]

/-- Concrete stored pull notification used by witnesses. -/
def nW : PullNotification :=
  { id := "1000-msg1", type := "pull", messageId := "msg1",
    data := pullDataW, publishTime := none, pulledAt := "t0" }

/-- Concrete pre-stored enriched record carrying nW's message id. -/
def eW : EnrichedSubscription := mkEnriched extPushW nW snW "v1" none

/-- Concrete v1 response used by the fallback witnesses. -/
def v1DetailsW : Json :=
  .obj [("obfuscatedExternalAccountId", .str "acct"),
        ("obfuscatedExternalProfileId", .str "prof"),
        ("expiryTimeMillis", .num 200), ("startTimeMillis", .num 100)]

/-- Oracle whose v2 lookup fails and whose v1 lookup succeeds. -/
def extV1W : Ext := { extPushW with getV1 := fun _ _ _ => some v1DetailsW }

/-- C2.  Decoding a push payload is total (`decodePush` is a function);
when the nested `message.data` field is present and its base64-then-JSON
decoding succeeds, the stored record's `data` is that parsed value (and
the raw envelope is kept alongside); when the field is absent or the
decoding chain fails, `data` is the original envelope.  The hypothesis
records the platform fact that falsy values (null, false, 0, the empty
string) never base64-decode to parseable JSON, which makes the source's
truthiness guard coincide with presence. -/
theorem push_decode_total_and_fallback (ext : Ext) (body : Json)
    (hfalsy : ∀ j : Json, j.truthy = false →
      (ext.tryDecodeB64 j).bind ext.parseJson = none) :
    (∀ d v, jpathMessageData body = some d →
        (ext.tryDecodeB64 d).bind ext.parseJson = some v →
        (mkPushEntry ext body).data = v ∧
        (mkPushEntry ext body).rawPayload = body) ∧
    (∀ d, jpathMessageData body = some d →
        (ext.tryDecodeB64 d).bind ext.parseJson = none →
        (mkPushEntry ext body).data = body) ∧
    (jpathMessageData body = none → (mkPushEntry ext body).data = body) := by
  refine ⟨?_, ?_, ?_⟩
  · intro d v hd hv
    have ht : d.truthy = true := by
      by_contra hc
      rw [hfalsy d (by revert hc; cases d.truthy <;> simp)] at hv
      exact Option.noConfusion hv
    exact ⟨by simp [mkPushEntry, decodePush, hd, ht, hv], rfl⟩
  · intro d hd hnone
    by_cases ht : d.truthy = true
    · simp [mkPushEntry, decodePush, hd, ht, hnone]
    · have ht' : d.truthy = false := by revert ht; cases d.truthy <;> simp
      simp [mkPushEntry, decodePush, hd, ht']
  · intro h
    simp [mkPushEntry, decodePush, h]

/-- The concrete oracle satisfies the falsy-values-never-decode side
condition. -/
theorem extPushW_falsy (j : Json) (hj : j.truthy = false) :
    (extPushW.tryDecodeB64 j).bind extPushW.parseJson = none := by
  cases j with
  | str s =>
      have hs : s = "" := by
        have := hj
        simp [Json.truthy] at this
        exact this
      subst hs
      rfl
  | null => rfl
  | bool b => rfl
  | num n => rfl
  | arr xs => simp [Json.truthy] at hj
  | obj fs => simp [Json.truthy] at hj

/-- Witness: the push-decoding theorem applied at a concrete oracle and
payload. -/
theorem push_decode_total_and_fallback_witness :
    (mkPushEntry extPushW bodyW).data = .obj [("ok", .num 1)] ∧
    (mkPushEntry extPushW (.obj [])).data = .obj [] := by
  have h := push_decode_total_and_fallback extPushW bodyW extPushW_falsy
  have h2 := push_decode_total_and_fallback extPushW (.obj []) extPushW_falsy
  exact ⟨(h.1 (.str "PAYLOAD") (.obj [("ok", .num 1)]) rfl rfl).1,
         h2.2.2 rfl⟩

/-- C3.  For both the synchronous pull path and the streaming pull path:
when the UTF-8 text of the message bytes parses as JSON, the stored
record's `data` is the parsed value; otherwise it is the raw string, and
the operation does not fail. -/
theorem pull_decode_fallback (ext : Ext) (mid dataStr : String)
    (pt : Option String) :
    (∀ j, ext.parseJson dataStr = some j →
        (mkPullEntry ext mid dataStr pt).data = j ∧
        (mkStreamEntry ext mid dataStr pt).data = j) ∧
    (ext.parseJson dataStr = none →
        (mkPullEntry ext mid dataStr pt).data = .str dataStr ∧
        (mkStreamEntry ext mid dataStr pt).data = .str dataStr) := by
  constructor
  · intro j hj
    exact ⟨by simp [mkPullEntry, decodePullData, hj],
           by simp [mkStreamEntry, decodePullData, hj]⟩
  · intro hn
    exact ⟨by simp [mkPullEntry, decodePullData, hn],
           by simp [mkStreamEntry, decodePullData, hn]⟩

/-- Witness: the pull-decoding theorem applied at a concrete oracle and
message. -/
theorem pull_decode_fallback_witness :
    (mkPullEntry extPushW "m1" "PAYLOAD" none).data = .obj [("ok", .num 1)] ∧
    (mkStreamEntry extPushW "m1" "oops" none).data = .str "oops" := by
  have h := pull_decode_fallback extPushW "m1" "PAYLOAD" none
  have h2 := pull_decode_fallback extPushW "m1" "oops" none
  exact ⟨(h.1 (.obj [("ok", .num 1)]) rfl).1, (h2.2 rfl).2⟩

/-- The enrichment step skips a notification without a truthy
`subscriptionNotification` field. -/
theorem enrichOne_skip (ext : Ext) (store : List EnrichedSubscription)
    (n : PullNotification)
    (h : jgetTruthy n.data "subscriptionNotification" = none) :
    enrichOne ext store n = (store, none, []) := by
  simp [enrichOne, h]

/-- The enrichment step short-circuits on an already-stored message id:
store untouched, the existing record reported, no upstream call. -/
theorem enrichOne_already (ext : Ext) (store : List EnrichedSubscription)
    (n : PullNotification) (sn : Json) (existing : EnrichedSubscription)
    (hq : jgetTruthy n.data "subscriptionNotification" = some sn)
    (hfind : store.find? (fun s => s.messageId == n.messageId) = some existing) :
    enrichOne ext store n = (store, some ⟨existing, .already_processed⟩, []) := by
  simp [enrichOne, hq, hfind]

/-- The enrichment step on a fresh message id with a truthy v2 response:
one v2 call, record appended with version v2. -/
theorem enrichOne_v2 (ext : Ext) (store : List EnrichedSubscription)
    (n : PullNotification) (sn : Json)
    (hq : jgetTruthy n.data "subscriptionNotification" = some sn)
    (hfind : store.find? (fun s => s.messageId == n.messageId) = none)
    (hv2 : truthyOpt (ext.getV2 (jget n.data "packageName")
      (jget sn "purchaseToken")) = true) :
    enrichOne ext store n =
      (store ++ [mkEnriched ext n sn "v2"
         (ext.getV2 (jget n.data "packageName") (jget sn "purchaseToken"))],
       some ⟨mkEnriched ext n sn "v2"
         (ext.getV2 (jget n.data "packageName") (jget sn "purchaseToken")),
         .processed⟩,
       [.v2 (jget n.data "packageName") (jget sn "purchaseToken")]) := by
  simp [enrichOne, hq, hfind, hv2]

/-- The enrichment step on a fresh message id with no truthy v2 response:
a v2 call followed by a v1 call, record appended with version v1. -/
theorem enrichOne_v1 (ext : Ext) (store : List EnrichedSubscription)
    (n : PullNotification) (sn : Json)
    (hq : jgetTruthy n.data "subscriptionNotification" = some sn)
    (hfind : store.find? (fun s => s.messageId == n.messageId) = none)
    (hv2 : truthyOpt (ext.getV2 (jget n.data "packageName")
      (jget sn "purchaseToken")) = false) :
    enrichOne ext store n =
      (store ++ [mkEnriched ext n sn "v1"
         (ext.getV1 (jget n.data "packageName") (jget sn "subscriptionId")
           (jget sn "purchaseToken"))],
       some ⟨mkEnriched ext n sn "v1"
         (ext.getV1 (jget n.data "packageName") (jget sn "subscriptionId")
           (jget sn "purchaseToken")),
         .processed⟩,
       [.v2 (jget n.data "packageName") (jget sn "purchaseToken"),
        .v1 (jget n.data "packageName") (jget sn "subscriptionId")
          (jget sn "purchaseToken")]) := by
  simp [enrichOne, hq, hfind, hv2]

/-- The store after an enrichment step is either unchanged or extended by
one record carrying the processed notification's message id, and the
latter happens only when no record with that id was stored. -/
theorem enrichOne_fst_cases (ext : Ext) (store : List EnrichedSubscription)
    (n : PullNotification) :
    (enrichOne ext store n).1 = store ∨
    (store.find? (fun s => s.messageId == n.messageId) = none ∧
     ∃ e, e.messageId = n.messageId ∧
       (enrichOne ext store n).1 = store ++ [e]) := by
  cases hq : jgetTruthy n.data "subscriptionNotification" with
  | none => left; rw [enrichOne_skip ext store n hq]
  | some sn =>
      cases hfind : store.find? (fun s => s.messageId == n.messageId) with
      | some existing => left; rw [enrichOne_already ext store n sn existing hq hfind]
      | none =>
          right
          refine ⟨rfl, ?_⟩
          by_cases hv2 : truthyOpt (ext.getV2 (jget n.data "packageName")
            (jget sn "purchaseToken")) = true
          · exact ⟨_, rfl, by rw [enrichOne_v2 ext store n sn hq hfind hv2]⟩
          · have hv2' : truthyOpt (ext.getV2 (jget n.data "packageName")
              (jget sn "purchaseToken")) = false := by
                revert hv2; cases truthyOpt (ext.getV2 (jget n.data "packageName")
                  (jget sn "purchaseToken")) <;> simp
            exact ⟨_, rfl, by rw [enrichOne_v1 ext store n sn hq hfind hv2']⟩

/-- One enrichment step preserves the per-message-id uniqueness
invariant. -/
theorem enrichOne_preserves_atMostOne (ext : Ext)
    (store : List EnrichedSubscription) (n : PullNotification)
    (h : atMostOnePerMessageId store) :
    atMostOnePerMessageId (enrichOne ext store n).1 := by
  rcases enrichOne_fst_cases ext store n with heq | ⟨hfind, e, he, heq⟩
  · rw [heq]; exact h
  · rw [heq, atMostOnePerMessageId, List.pairwise_append]
    refine ⟨h, List.pairwise_singleton _ _, ?_⟩
    intro a ha b hb
    simp only [List.mem_singleton] at hb
    subst hb
    rw [he]
    have := List.find?_eq_none.mp hfind a ha
    simpa using this

/-- Appending a record with the counted message id increments the
count. -/
theorem countMid_append_match (store : List EnrichedSubscription)
    (e : EnrichedSubscription) (m : String) (he : e.messageId = m) :
    countMid (store ++ [e]) m = countMid store m + 1 := by
  simp [countMid, List.filter_append, he]

/-- A zero count means the idempotency lookup finds nothing. -/
theorem countMid_zero_find (store : List EnrichedSubscription) (m : String)
    (h : countMid store m = 0) :
    store.find? (fun s => s.messageId == m) = none := by
  rw [countMid, List.length_eq_zero, List.filter_eq_nil_iff] at h
  exact List.find?_eq_none.mpr h

/-- The first component of the batch fold only depends on the store
threading of the per-notification steps. -/
theorem subscriptionsFetch_fst (ext : Ext) (ps : List PullNotification) :
    ∀ (subs : List EnrichedSubscription) (res : List ResultEntry)
      (calls : List ApiCall),
      (ps.foldl
        (fun acc n =>
          let step := enrichOne ext acc.1 n
          (step.1, acc.2.1 ++ step.2.1.toList, acc.2.2 ++ step.2.2))
        (subs, res, calls)).1
        = ps.foldl (fun s n => (enrichOne ext s n).1) subs := by
  induction ps with
  | nil => intro subs res calls; rfl
  | cons n ps ih =>
      intro subs res calls
      simpa using ih (enrichOne ext subs n).1 _ _

/-- Folding enrichment steps over any pull collection preserves the
per-message-id uniqueness invariant. -/
theorem foldl_enrich_preserves (ext : Ext) (ps : List PullNotification) :
    ∀ subs, atMostOnePerMessageId subs →
      atMostOnePerMessageId (ps.foldl (fun s n => (enrichOne ext s n).1) subs) := by
  induction ps with
  | nil => intro subs h; exact h
  | cons n ps ih =>
      intro subs h
      exact ih _ (enrichOne_preserves_atMostOne ext subs n h)

/-- C1.  Idempotency of enrichment per message id: a stored record with
the notification's message id short-circuits the step (store untouched,
no upstream call, existing record reported as already processed); each
step and each whole batch run preserve the at-most-one-record-per-id
invariant; and enriching the same qualifying notification twice starting
from a store without its id leaves exactly one record with that id. -/
theorem enrich_idempotent_per_messageId (ext : Ext)
    (store : List EnrichedSubscription) (n : PullNotification)
    (pullStore : List PullNotification) (subs : List EnrichedSubscription) :
    (∀ sn existing, jgetTruthy n.data "subscriptionNotification" = some sn →
       store.find? (fun s => s.messageId == n.messageId) = some existing →
       enrichOne ext store n = (store, some ⟨existing, .already_processed⟩, [])) ∧
    (atMostOnePerMessageId store →
       atMostOnePerMessageId (enrichOne ext store n).1) ∧
    (∀ sn, jgetTruthy n.data "subscriptionNotification" = some sn →
       countMid store n.messageId = 0 →
       countMid (enrichOne ext (enrichOne ext store n).1 n).1 n.messageId = 1) ∧
    (atMostOnePerMessageId subs →
       atMostOnePerMessageId (subscriptionsFetch ext pullStore subs).1) := by
  refine ⟨?_, ?_, ?_, ?_⟩
  · intro sn existing hq hfind
    exact enrichOne_already ext store n sn existing hq hfind
  · exact enrichOne_preserves_atMostOne ext store n
  · intro sn hq h0
    have hfind := countMid_zero_find store n.messageId h0
    have step1 : ∃ e, e.messageId = n.messageId ∧
        (enrichOne ext store n).1 = store ++ [e] := by
      rcases enrichOne_fst_cases ext store n with heq | ⟨_, e, he, heq⟩
      · exfalso
        by_cases hv2 : truthyOpt (ext.getV2 (jget n.data "packageName")
          (jget sn "purchaseToken")) = true
        · rw [enrichOne_v2 ext store n sn hq hfind hv2] at heq
          simp at heq
        · have hv2' : truthyOpt (ext.getV2 (jget n.data "packageName")
            (jget sn "purchaseToken")) = false := by
              revert hv2; cases truthyOpt (ext.getV2 (jget n.data "packageName")
                (jget sn "purchaseToken")) <;> simp
          rw [enrichOne_v1 ext store n sn hq hfind hv2'] at heq
          simp at heq
      · exact ⟨e, he, heq⟩
    obtain ⟨e, he, heq⟩ := step1
    have hcount1 : countMid (enrichOne ext store n).1 n.messageId = 1 := by
      rw [heq, countMid_append_match store e n.messageId he, h0]
    have hsome : ∃ existing, (enrichOne ext store n).1.find?
        (fun s => s.messageId == n.messageId) = some existing := by
      have hmem : e ∈ (enrichOne ext store n).1 := by
        rw [heq]; exact List.mem_append_right store (List.mem_singleton.mpr rfl)
      have : ((enrichOne ext store n).1.find?
          (fun s => s.messageId == n.messageId)).isSome := by
        rw [List.find?_isSome]
        exact ⟨e, hmem, by simp [he]⟩
      exact Option.isSome_iff_exists.mp this
    obtain ⟨existing, hex⟩ := hsome
    rw [enrichOne_already ext _ n sn existing hq hex]
    exact hcount1
  · intro h
    rw [subscriptionsFetch, subscriptionsFetch_fst ext pullStore subs [] []]
    exact foldl_enrich_preserves ext pullStore subs h

/-- Witness: the idempotency theorem applied at a concrete store holding
the notification's message id, and at the twice-enriched empty store. -/
theorem enrich_idempotent_per_messageId_witness :
    enrichOne extPushW [eW] nW
      = ([eW], some ⟨eW, EnrichStatus.already_processed⟩, []) ∧
    countMid (enrichOne extPushW (enrichOne extPushW [] nW).1 nW).1
      nW.messageId = 1 :=
  ⟨(enrich_idempotent_per_messageId extPushW [eW] nW [] []).1 snW eW rfl rfl,
   (enrich_idempotent_per_messageId extPushW [] nW [] []).2.2.1 snW rfl rfl⟩

/-- C4.  Version-fallback protocol of the batch enricher: v2 is always
called first; v1 is called exactly when v2 yields no truthy data; and
when v2 fails while v1 returns truthy data, the stored record carries
apiVersion v1 with user identifiers and epoch times taken from the v1
top-level fields. -/
theorem enrich_version_fallback (ext : Ext)
    (store : List EnrichedSubscription) (n : PullNotification) (sn : Json)
    (hq : jgetTruthy n.data "subscriptionNotification" = some sn)
    (hfind : store.find? (fun s => s.messageId == n.messageId) = none) :
    (truthyOpt (ext.getV2 (jget n.data "packageName")
        (jget sn "purchaseToken")) = true →
      (enrichOne ext store n).2.2
        = [.v2 (jget n.data "packageName") (jget sn "purchaseToken")]) ∧
    (truthyOpt (ext.getV2 (jget n.data "packageName")
        (jget sn "purchaseToken")) = false →
      (enrichOne ext store n).2.2
        = [.v2 (jget n.data "packageName") (jget sn "purchaseToken"),
           .v1 (jget n.data "packageName") (jget sn "subscriptionId")
             (jget sn "purchaseToken")] ∧
      ∀ d, ext.getV1 (jget n.data "packageName") (jget sn "subscriptionId")
          (jget sn "purchaseToken") = some d →
        d.truthy = true →
        ∃ e, (enrichOne ext store n).1 = store ++ [e] ∧
          (enrichOne ext store n).2.1 = some ⟨e, .processed⟩ ∧
          e.apiVersion = "v1" ∧
          e.apiResponse = some d ∧
          e.userAccountId = jgetTruthy d "obfuscatedExternalAccountId" ∧
          e.userProfileId = jgetTruthy d "obfuscatedExternalProfileId" ∧
          e.expiryTime = jgetTruthy d "expiryTimeMillis" ∧
          e.startTime = jgetTruthy d "startTimeMillis" ∧
          e.subscriptionState = none) := by
  constructor
  · intro hv2
    rw [enrichOne_v2 ext store n sn hq hfind hv2]
  · intro hv2
    rw [enrichOne_v1 ext store n sn hq hfind hv2]
    refine ⟨rfl, ?_⟩
    intro d hd htr
    refine ⟨_, rfl, rfl, rfl, ?_, ?_, ?_, ?_, ?_, ?_⟩ <;>
      simp [mkEnriched, extractDetails, extractV1, hd, htr]

/-- Witness: the version-fallback theorem applied at a concrete oracle
that fails v2 and succeeds v1. -/
theorem enrich_version_fallback_witness :
    (enrichOne extV1W [] nW).2.2
      = [ApiCall.v2 (some (.str "com.x")) (some (.str "tok1")),
         ApiCall.v1 (some (.str "com.x")) (some (.str "sub1"))
           (some (.str "tok1"))] ∧
    ∃ e, (enrichOne extV1W [] nW).1 = [e] ∧
      e.apiVersion = "v1" ∧
      e.userAccountId = some (.str "acct") ∧
      e.startTime = some (.num 100) := by
  obtain ⟨hc, hall⟩ := (enrich_version_fallback extV1W [] nW snW rfl rfl).2 rfl
  obtain ⟨e, h1, _, h3, _, h5, _, _, h8, _⟩ := hall v1DetailsW rfl rfl
  exact ⟨hc, e, h1, h3, h5, h8⟩

/-- When the upstream response carries no truthy data, the extraction
block leaves every enrichment field null. -/
theorem extractDetails_nontruthy (ext : Ext) (v : String)
    (details : Option Json) (h : truthyOpt details = false) :
    extractDetails ext v details = emptyExtracted := by
  cases details with
  | none => rfl
  | some d =>
      simp only [truthyOpt] at h
      simp [extractDetails, h]

/-- C9.  When both versions return no truthy data for a qualifying fresh
notification, the stored null-enriched record still carries apiVersion
v1: the field records that the fallback branch ran, not that v1
succeeded. -/
theorem enrich_both_fail_marks_v1 (ext : Ext)
    (store : List EnrichedSubscription) (n : PullNotification) (sn : Json)
    (hq : jgetTruthy n.data "subscriptionNotification" = some sn)
    (hfind : store.find? (fun s => s.messageId == n.messageId) = none)
    (hv2 : truthyOpt (ext.getV2 (jget n.data "packageName")
      (jget sn "purchaseToken")) = false)
    (hv1 : truthyOpt (ext.getV1 (jget n.data "packageName")
      (jget sn "subscriptionId") (jget sn "purchaseToken")) = false) :
    ∃ e, (enrichOne ext store n).1 = store ++ [e] ∧
      e.apiVersion = "v1" ∧
      e.userAccountId = none ∧
      e.userProfileId = none ∧
      e.subscriptionState = none ∧
      e.startTime = none ∧
      e.expiryTime = none ∧
      e.apiResponse = ext.getV1 (jget n.data "packageName")
        (jget sn "subscriptionId") (jget sn "purchaseToken") := by
  rw [enrichOne_v1 ext store n sn hq hfind hv2]
  refine ⟨_, rfl, rfl, ?_, ?_, ?_, ?_, ?_, rfl⟩ <;>
    simp [mkEnriched, extractDetails_nontruthy ext "v1" _ hv1, emptyExtracted]

/-- Witness: the both-versions-fail theorem applied at an oracle that
returns no data for either version. -/
theorem enrich_both_fail_marks_v1_witness :
    ∃ e, (enrichOne extPushW [] nW).1 = [e] ∧
      e.apiVersion = "v1" ∧ e.userAccountId = none := by
  obtain ⟨e, h1, h2, h3, _⟩ :=
    enrich_both_fail_marks_v1 extPushW [] nW snW rfl rfl rfl rfl
  exact ⟨e, h1, h2, h3⟩

/-- A qualifying fresh notification always gets a record appended whose
type name is computed by the table lookup with UNKNOWN default. -/
theorem enrichOne_appends_typeName (ext : Ext)
    (store : List EnrichedSubscription) (n : PullNotification) (sn : Json)
    (hq : jgetTruthy n.data "subscriptionNotification" = some sn)
    (hfind : store.find? (fun s => s.messageId == n.messageId) = none) :
    ∃ e, (enrichOne ext store n).1 = store ++ [e] ∧
      e.notificationTypeName = typeNameOf (jget sn "notificationType") := by
  by_cases hv2 : truthyOpt (ext.getV2 (jget n.data "packageName")
      (jget sn "purchaseToken")) = true
  · rw [enrichOne_v2 ext store n sn hq hfind hv2]
    exact ⟨_, rfl, rfl⟩
  · have hv2' : truthyOpt (ext.getV2 (jget n.data "packageName")
        (jget sn "purchaseToken")) = false := by
      revert hv2
      cases truthyOpt (ext.getV2 (jget n.data "packageName")
        (jget sn "purchaseToken")) <;> simp
    rw [enrichOne_v1 ext store n sn hq hfind hv2']
    exact ⟨_, rfl, rfl⟩

/-- C6.  The notification-type mapping: the fixed table has 14 entries,
code 4 names SUBSCRIPTION_PURCHASED, any code outside the table yields
the UNKNOWN sentinel instead of failing, and every record stored by the
enricher carries the name computed by that mapping. -/
theorem notification_type_mapping (ext : Ext)
    (store : List EnrichedSubscription) (n : PullNotification) (sn : Json)
    (c : Int)
    (hq : jgetTruthy n.data "subscriptionNotification" = some sn)
    (hfind : store.find? (fun s => s.messageId == n.messageId) = none)
    (hc : NOTIFICATION_TYPES c = none) :
    NOTIFICATION_TYPES_LIST.length = 14 ∧
    NOTIFICATION_TYPES 4 = some "SUBSCRIPTION_PURCHASED" ∧
    typeNameOf (some (.num 4)) = "SUBSCRIPTION_PURCHASED" ∧
    typeNameOf (some (.num c)) = "UNKNOWN" ∧
    ∃ e, (enrichOne ext store n).1 = store ++ [e] ∧
      e.notificationTypeName = typeNameOf (jget sn "notificationType") := by
  refine ⟨rfl, rfl, rfl, ?_, enrichOne_appends_typeName ext store n sn hq hfind⟩
  simp [typeNameOf, hc]

/-- Witness: the mapping theorem applied at the unmapped code 999 and a
concrete fresh notification carrying code 4. -/
theorem notification_type_mapping_witness :
    typeNameOf (some (.num 999)) = "UNKNOWN" ∧
    typeNameOf (some (.num 4)) = "SUBSCRIPTION_PURCHASED" ∧
    ∃ e, (enrichOne extPushW [] nW).1 = [e] ∧
      e.notificationTypeName = typeNameOf (jget snW "notificationType") := by
  obtain ⟨_, _, h3, h4, h5⟩ :=
    notification_type_mapping extPushW [] nW snW 999 rfl rfl rfl
  exact ⟨h4, h3, h5⟩

/-- C5.  The ad-hoc lookup applies the same v2-then-v1 fallback protocol
when the caller supplies a truthy triple, and when both versions yield no
truthy data it responds not-found, leaving the enriched-subscriptions
store exactly as it was. -/
theorem lookup_fallback_and_not_found (ext : Ext)
    (subs : List EnrichedSubscription) (pn pt sid : Option Json)
    (hpn : truthyOpt pn = true) (hpt : truthyOpt pt = true)
    (hsid : truthyOpt sid = true) :
    (truthyOpt (ext.getV2 pn pt) = true →
      subscriptionsLookup ext subs pn pt sid
        = (subs,
           .ok "v2" (extractLookup "v2" ((ext.getV2 pn pt).getD .null))
             (ext.getV2 pn pt),
           [.v2 pn pt])) ∧
    (truthyOpt (ext.getV2 pn pt) = false →
      truthyOpt (ext.getV1 pn sid pt) = true →
      subscriptionsLookup ext subs pn pt sid
        = (subs,
           .ok "v1" (extractLookup "v1" ((ext.getV1 pn sid pt).getD .null))
             (ext.getV1 pn sid pt),
           [.v2 pn pt, .v1 pn sid pt])) ∧
    (truthyOpt (ext.getV2 pn pt) = false →
      truthyOpt (ext.getV1 pn sid pt) = false →
      subscriptionsLookup ext subs pn pt sid
        = (subs, .notFound, [.v2 pn pt, .v1 pn sid pt])) := by
  refine ⟨?_, ?_, ?_⟩
  · intro hv2
    simp [subscriptionsLookup, hpn, hpt, hv2]
  · intro hv2 hv1
    simp [subscriptionsLookup, hpn, hpt, hsid, hv2, hv1]
  · intro hv2 hv1
    simp [subscriptionsLookup, hpn, hpt, hsid, hv2, hv1]

/-- Witness: the lookup theorem applied at a concrete oracle that fails
both versions — a not-found response and an unchanged (empty) store. -/
theorem lookup_fallback_and_not_found_witness :
    subscriptionsLookup extPushW [] (some (.str "com.x"))
        (some (.str "tok1")) (some (.str "sub1"))
      = ([], .notFound,
         [.v2 (some (.str "com.x")) (some (.str "tok1")),
          .v1 (some (.str "com.x")) (some (.str "sub1"))
            (some (.str "tok1"))]) :=
  (lookup_fallback_and_not_found extPushW [] (some (.str "com.x"))
    (some (.str "tok1")) (some (.str "sub1")) rfl rfl rfl).2.2 rfl rfl

/-- C10.  Frame property of the ad-hoc lookup: it never changes the
enriched-subscriptions store, whatever the request and oracle do. -/
theorem lookup_preserves_subscriptions_store (ext : Ext)
    (subs : List EnrichedSubscription) (pn pt sid : Option Json) :
    (subscriptionsLookup ext subs pn pt sid).1 = subs := by
  simp only [subscriptionsLookup]
  split_ifs <;> rfl

/-- C8.  Single-listener discipline: starting while a listener is active
leaves that listener in place (whatever the configuration flag) and
reports it as already running; stopping with no active listener is a
no-op; and a second start never replaces the first listener. -/
theorem single_listener_invariant (flag : Bool) (l fresh fresh2 : Nat) :
    (pullStart flag (some l) fresh).1 = some l ∧
    (pullStart true (some l) fresh).2 = "Pull listener already running" ∧
    pullStop (none : ListenerState) = (none, "No pull listener running") ∧
    (pullStart true (pullStart true none fresh).1 fresh2).1 = some fresh := by
  cases flag <;> exact ⟨rfl, rfl, rfl, rfl⟩

/-- C7 counterexample.  In the synchronous pull path the batch is
acknowledged before the pull file is written: on a one-message batch the
durable-before-acknowledge predicate fails, and when the file write
fails the acknowledgment has still been sent while no successful write
ever happened. -/
theorem sync_pull_acks_before_durable_persist :
    ackAfterDurable (syncPullTrace [⟨"m1", "d1"⟩] true) = false ∧
    PubSubEvent.ack "m1" ∈ syncPullTrace [⟨"m1", "d1"⟩] false ∧
    PubSubEvent.save ∉ syncPullTrace [⟨"m1", "d1"⟩] false := by
  refine ⟨by decide, by decide, by decide⟩

/-- Prefixing a trace with in-memory appends extends the seen set for
the append-before-acknowledge scan. -/
theorem appendBeforeAckAux_appends (l : List PullMsg) :
    ∀ (seen : List String) (rest : List PubSubEvent),
      appendBeforeAckAux seen
          ((l.map fun m => PubSubEvent.append m.messageId) ++ rest)
        = appendBeforeAckAux ((l.map fun m => m.messageId).reverse ++ seen)
            rest := by
  induction l with
  | nil => intro seen rest; rfl
  | cons m l ih =>
      intro seen rest
      simp only [List.map_cons, List.cons_append, appendBeforeAckAux,
        List.append_eq]
      rw [ih]
      congr 1
      simp [List.append_assoc]

/-- Acknowledgments of already-seen messages pass the
append-before-acknowledge scan. -/
theorem appendBeforeAckAux_acks (l : List PullMsg) :
    ∀ (seen : List String) (rest : List PubSubEvent),
      (∀ m ∈ l, m.messageId ∈ seen) →
      appendBeforeAckAux seen
          ((l.map fun m => PubSubEvent.ack m.messageId) ++ rest)
        = appendBeforeAckAux seen rest := by
  induction l with
  | nil => intro seen rest _; rfl
  | cons m l ih =>
      intro seen rest h
      simp only [List.map_cons, List.cons_append, appendBeforeAckAux,
        List.append_eq]
      have hm : seen.contains m.messageId = true := by
        simp [List.contains, h m (List.mem_cons_self m l)]
      rw [hm, ih seen rest (fun m' hm' => h m' (List.mem_cons_of_mem m hm'))]
      simp

/-- C7 amended.  Acknowledgment ordering that the code actually
guarantees: the streaming path acknowledges a message only after its
append and a successful file write, and a failed write suppresses the
acknowledgment entirely; the synchronous path guarantees only that each
message is appended in memory before its batch acknowledgment (the file
write comes after the acknowledgment). -/
theorem pull_ack_ordering_amended (m : PullMsg) (saveOk : Bool)
    (msgs : List PullMsg) (so : Bool) :
    ackAfterDurable (streamMessageTrace m saveOk) = true ∧
    (saveOk = false → ∀ a, PubSubEvent.ack a ∉ streamMessageTrace m saveOk) ∧
    appendBeforeAck (syncPullTrace msgs so) = true := by
  refine ⟨?_, ?_, ?_⟩
  · cases saveOk <;>
      simp [streamMessageTrace, ackAfterDurable, ackAfterDurableAux,
        List.contains]
  · intro hso a
    subst hso
    simp [streamMessageTrace]
  · by_cases he : msgs.isEmpty
    · simp [syncPullTrace, he, appendBeforeAck, appendBeforeAckAux]
    · rw [appendBeforeAck, syncPullTrace, if_neg he, List.append_assoc,
        appendBeforeAckAux_appends msgs [] _,
        appendBeforeAckAux_acks msgs _ _ ?_]
      · cases so <;> rfl
      · intro m' hm'
        simp only [List.append_nil, List.mem_reverse, List.mem_map]
        exact ⟨m', hm', rfl⟩

/-- Witness: the amended ordering theorem applied at a concrete message
and batch, discharging the failed-write hypothesis. -/
theorem pull_ack_ordering_amended_witness :
    ackAfterDurable (streamMessageTrace ⟨"m1", "d1"⟩ false) = true ∧
    (∀ a, PubSubEvent.ack a ∉ streamMessageTrace ⟨"m1", "d1"⟩ false) ∧
    appendBeforeAck (syncPullTrace [⟨"m1", "d1"⟩] true) = true := by
  have h := pull_ack_ordering_amended ⟨"m1", "d1"⟩ false [⟨"m1", "d1"⟩] true
  exact ⟨h.1, h.2.1 rfl, h.2.2⟩

end PlayService
